import Mathlib

/-!
Verification development for the moon-landing simulation.

The JavaScript source (src/script.js and src/unnamed/part_001) is embedded
shallowly: floating-point numbers become real numbers, the mutable `Game`
object becomes an explicit `GameState` record, and each method becomes a
function from state to state.  The embedding follows src/unnamed/part_001
(the variant with the oriented-box collision test and the radial upright
test); the per-file tuning constants are collected in a `Config` record so
that both source variants are instances of the same definitions.
-/

open scoped Classical

noncomputable section

namespace MoonLanding

/-- Claim-independent: a 2D point or vector, the shape of the JS object with x and y. -/
structure Vec2 where
  x : ℝ
  y : ℝ

/-- Tuning constants of the game, one field per JS top-level constant. -/
structure Config where
  moonRadius : ℝ
  moonGravity : ℝ
  moonBumpiness : ℝ
  moonSegments : ℕ
  moonRotationSpeed : ℝ
  spacecraftHeight : ℝ
  landingZoneSpread : ℕ
  thrustForce : ℝ
  fuelConsumption : ℝ
  rotationSpeed : ℝ
  acceptableLandingAngle : ℝ
  acceptableLandingSpeed : ℝ

/-- Constants of src/unnamed/part_001. -/
def part001Config : Config where
  moonRadius := 400
  moonGravity := 1.62
  moonBumpiness := 0.025
  moonSegments := 280
  moonRotationSpeed := 0.02 / 60
  spacecraftHeight := 8
  landingZoneSpread := 5
  thrustForce := 4
  fuelConsumption := 1.5
  rotationSpeed := 35
  acceptableLandingAngle := 4
  acceptableLandingSpeed := 2.5

/-- Constants of src/script.js. -/
def scriptConfig : Config where
  moonRadius := 400
  moonGravity := 1.62
  moonBumpiness := 0.03
  moonSegments := 250
  moonRotationSpeed := 0.02 / 60
  spacecraftHeight := 6
  landingZoneSpread := 5
  thrustForce := 4
  fuelConsumption := 0.5
  rotationSpeed := 20
  acceptableLandingAngle := 4
  acceptableLandingSpeed := 2.5

/-- The mutable spacecraft record of the JS Game object. -/
structure Spacecraft where
  x : ℝ
  y : ℝ
  rotation : ℝ
  velocityX : ℝ
  velocityY : ℝ
  fuel : ℝ

/-- Current boolean state of the three arrow keys read by the tick. -/
structure Keys where
  arrowLeft : Bool
  arrowRight : Bool
  arrowUp : Bool

/-- Reason attached to a crash, one per message family in the JS source. -/
inductive CrashReason where
  | missedZone
  | notUpright
  | tooFast
  deriving DecidableEq, Repr

/-- Terminal classification emitted by endGame. -/
inductive Outcome where
  | landed
  | crashed (reason : CrashReason)
  deriving DecidableEq, Repr

/-- The mutable per-session fields of the JS Game object that the core tick
pipeline reads or writes.  The outcome field records the classification that
endGame hands to the modal, so that the emitted result is observable. -/
structure GameState where
  isGameActive : Bool
  isPaused : Bool
  moonPoints : List Vec2
  landingZoneIndex : ℤ
  moonRotation : ℝ
  moonCenter : Vec2
  moonRadius : ℝ
  scale : ℝ
  spacecraft : Spacecraft
  keys : Keys
  outcome : Option Outcome

/-- Fixed time step of the update method: dt = 1 / 60. -/
def dt : ℝ := 1 / 60

/-- JS Math.atan2 y x, embedded as the argument of the complex number x + y i.
Total: it returns 0 at the zero vector, exactly as Math.atan2 0 0 does. -/
def atan2 (y x : ℝ) : ℝ :=
  Complex.arg ⟨x, y⟩

/-- JS remainder a % b: truncated division, result carries the sign of a. -/
def rtrunc (x : ℝ) : ℤ :=
  if 0 ≤ x then ⌊x⌋ else ⌈x⌉

/-- JS a % b = a - b * trunc (a / b). -/
def jsMod (a b : ℝ) : ℝ :=
  a - b * rtrunc (a / b)

/-- The direction angle used by the gravity block of update:
gravityAngle = atan2 (moonCenter.y - y) (moonCenter.x - x). -/
def gravityAngle (st : GameState) : ℝ :=
  atan2 (st.moonCenter.y - st.spacecraft.y) (st.moonCenter.x - st.spacecraft.x)

/-- The unused distance variable of the gravity block of update:
distance = sqrt (dx * dx + dy * dy). -/
def distanceToCenter (st : GameState) : ℝ :=
  Real.sqrt ((st.moonCenter.x - st.spacecraft.x) * (st.moonCenter.x - st.spacecraft.x) +
    (st.moonCenter.y - st.spacecraft.y) * (st.moonCenter.y - st.spacecraft.y))

/-- Speed of the craft as checkCollision computes it: sqrt (vx * vx + vy * vy). -/
def speed (st : GameState) : ℝ :=
  Real.sqrt (st.spacecraft.velocityX * st.spacecraft.velocityX +
    st.spacecraft.velocityY * st.spacecraft.velocityY)

/-- The kinematic part of the update method (lines 201 to 234 of part_001):
moon rotation advance, rotation keys, thrust with fuel burn, gravity towards
the moon center via atan2, and position integration, in source order. -/
def physicsStep (cfg : Config) (st : GameState) : GameState :=
  let moonRotation2 := st.moonRotation + cfg.moonRotationSpeed * dt * Real.pi * 2
  let rot1 := if st.keys.arrowLeft then st.spacecraft.rotation - cfg.rotationSpeed * dt
              else st.spacecraft.rotation
  let rot2 := if st.keys.arrowRight then rot1 + cfg.rotationSpeed * dt else rot1
  let thrusting := st.keys.arrowUp = true ∧ 0 < st.spacecraft.fuel
  let thrustAngle := rot2 * Real.pi / 180
  let vx1 := if thrusting then
      st.spacecraft.velocityX + Real.sin thrustAngle * cfg.thrustForce * dt
    else st.spacecraft.velocityX
  let vy1 := if thrusting then
      st.spacecraft.velocityY - Real.cos thrustAngle * cfg.thrustForce * dt
    else st.spacecraft.velocityY
  let fuel1 := if thrusting then max 0 (st.spacecraft.fuel - cfg.fuelConsumption * dt)
    else st.spacecraft.fuel
  let g := gravityAngle st
  let vx2 := vx1 + Real.cos g * cfg.moonGravity * dt
  let vy2 := vy1 + Real.sin g * cfg.moonGravity * dt
  let x2 := st.spacecraft.x + vx2 * dt * st.scale
  let y2 := st.spacecraft.y + vy2 * dt * st.scale
  { st with
    moonRotation := moonRotation2
    spacecraft :=
      { x := x2, y := y2, rotation := rot2, velocityX := vx2, velocityY := vy2,
        fuel := fuel1 } }

/-- The rotatePoint method: rotation of a point about a center by an angle. -/
def rotatePoint (point center : Vec2) (angle : ℝ) : Vec2 :=
  let c := Real.cos angle
  let s := Real.sin angle
  { x := c * (point.x - center.x) - s * (point.y - center.y) + center.x,
    y := s * (point.x - center.x) + c * (point.y - center.y) + center.y }

/-- The lineSegmentsIntersect helper of part_001: solve the parametric 2 by 2
system; a zero denominator (parallel, which subsumes zero length) reports no
intersection, otherwise both parameters must lie in the unit interval. -/
def lineSegmentsIntersect (x1 y1 x2 y2 x3 y3 x4 y4 : ℝ) : Prop :=
  let dx1 := x2 - x1
  let dy1 := y2 - y1
  let dx2 := x4 - x3
  let dy2 := y4 - y3
  let denominator := dx1 * dy2 - dy1 * dx2
  denominator ≠ 0 ∧
    ((x3 - x1) * dy2 - (y3 - y1) * dx2) / denominator ≥ 0 ∧
    ((x3 - x1) * dy2 - (y3 - y1) * dx2) / denominator ≤ 1 ∧
    ((x3 - x1) * dy1 - (y3 - y1) * dx1) / denominator ≥ 0 ∧
    ((x3 - x1) * dy1 - (y3 - y1) * dx1) / denominator ≤ 1

/-- The four corners of the rotated bounding box of checkCollision in
part_001, in source order: top left, top right, bottom right, bottom left. -/
def craftCorners (cfg : Config) (st : GameState) : Fin 4 → Vec2 :=
  let halfWidth := cfg.spacecraftHeight * st.scale * 0.2
  let halfHeight := cfg.spacecraftHeight * st.scale * 0.4
  let a := st.spacecraft.rotation * Real.pi / 180
  let c := Real.cos a
  let s := Real.sin a
  fun j => match j with
  | 0 => { x := st.spacecraft.x + (-halfWidth * c - halfHeight * s),
           y := st.spacecraft.y + (-halfWidth * s + halfHeight * c) }
  | 1 => { x := st.spacecraft.x + (halfWidth * c - halfHeight * s),
           y := st.spacecraft.y + (halfWidth * s + halfHeight * c) }
  | 2 => { x := st.spacecraft.x + (halfWidth * c + halfHeight * s),
           y := st.spacecraft.y + (halfWidth * s - halfHeight * c) }
  | 3 => { x := st.spacecraft.x + (-halfWidth * c + halfHeight * s),
           y := st.spacecraft.y + (-halfWidth * s - halfHeight * c) }

/-- The rotated surface polygon computed at the top of checkCollision. -/
def rotatedPoints (st : GameState) : List Vec2 :=
  st.moonPoints.map fun point => rotatePoint point st.moonCenter st.moonRotation

/-- The inner loop body of checkCollision for stored segment i: some side j of
the spacecraft box, with the next corner taken modulo 4, intersects the moon
segment from rotated point i to rotated point i + 1. -/
def craftHitsSegment (cfg : Config) (st : GameState) (i : ℕ) : Prop :=
  let pts := rotatedPoints st
  let moonP1 := pts.getD i { x := 0, y := 0 }
  let moonP2 := pts.getD (i + 1) { x := 0, y := 0 }
  ∃ j : Fin 4,
    lineSegmentsIntersect (craftCorners cfg st j).x (craftCorners cfg st j).y
      (craftCorners cfg st (j + 1)).x (craftCorners cfg st (j + 1)).y
      moonP1.x moonP1.y moonP2.x moonP2.y

/-- The collision scan of checkCollision: the loop runs i from 0 to
rotatedPoints.length - 2 and breaks at the first stored segment some craft
side intersects, so the result is the first such index, if any. -/
def detectIdx (cfg : Config) (st : GameState) : Option ℕ :=
  (List.range ((rotatedPoints st).length - 1)).find?
    fun i => decide (craftHitsSegment cfg st i)

/-- The in-zone test of checkCollision:
abs (closestSegmentIndex - landingZoneIndex) is at most 1. -/
def isInLandingZone (st : GameState) (closestSegmentIndex : ℤ) : Prop :=
  |closestSegmentIndex - st.landingZoneIndex| ≤ 1

/-- The angleToCenter value of checkCollision in part_001: the atan2 direction
from the craft to the moon center, in degrees. -/
def angleToCenter (st : GameState) : ℝ :=
  atan2 (st.moonCenter.y - st.spacecraft.y) (st.moonCenter.x - st.spacecraft.x) * 180 / Real.pi

/-- The relativeRotation value of checkCollision in part_001: the craft
rotation, offset by 90 degrees because the craft is drawn pointing upward,
made relative to angleToCenter, then reduced by the JS remainder by 360. -/
def relativeRotation (st : GameState) : ℝ :=
  jsMod (st.spacecraft.rotation + 90 - angleToCenter st) 360

/-- The normalizedRotation value of checkCollision in part_001: fold
relativeRotation towards the range from -180 to 180. -/
def normalizedRotation (st : GameState) : ℝ :=
  if relativeRotation st > 180 then relativeRotation st - 360
  else if relativeRotation st < -180 then relativeRotation st + 360
  else relativeRotation st

/-- The upright test of checkCollision in part_001:
abs normalizedRotation is at most ACCEPTABLE_LANDING_ANGLE. -/
def isUprightLanding (cfg : Config) (st : GameState) : Prop :=
  |normalizedRotation st| ≤ cfg.acceptableLandingAngle

/-- The speed test of checkCollision: speed at most ACCEPTABLE_LANDING_SPEED. -/
def isSoftLanding (cfg : Config) (st : GameState) : Prop :=
  speed st ≤ cfg.acceptableLandingSpeed

/-- The classification tail of checkCollision in part_001 (lines 316 to 366):
all three tests pass gives success, otherwise the reason cascade picks
missedZone, then notUpright, then tooFast. -/
def classify (cfg : Config) (st : GameState) (closestSegmentIndex : ℤ) : Outcome :=
  if isInLandingZone st closestSegmentIndex ∧ isUprightLanding cfg st ∧ isSoftLanding cfg st then
    Outcome.landed
  else if ¬isInLandingZone st closestSegmentIndex then Outcome.crashed CrashReason.missedZone
  else if ¬isUprightLanding cfg st then Outcome.crashed CrashReason.notUpright
  else Outcome.crashed CrashReason.tooFast

/-- The endGame method: clears isGameActive and records the emitted outcome. -/
def endGame (st : GameState) (o : Outcome) : GameState :=
  { st with isGameActive := false, outcome := some o }

/-- The checkCollision method of part_001: scan for an intersected stored
segment; when none is found return with the state untouched, otherwise
classify the touchdown and end the game with the classification. -/
def checkCollision (cfg : Config) (st : GameState) : GameState :=
  match detectIdx cfg st with
  | none => st
  | some i => endGame st (classify cfg st (i : ℤ))

/-- The update method: a no-op unless the game is active and not paused,
otherwise one kinematic step followed by the collision check. -/
def update (cfg : Config) (st : GameState) : GameState :=
  if st.isGameActive = false ∨ st.isPaused = true then st
  else checkCollision cfg (physicsStep cfg st)

/-- The randomOffset value of generateMoon: zero on the landing-zone span,
otherwise a centered uniform sample scaled by radius and bumpiness.  The
Math.random stream is passed in as a function from the loop index. -/
def randomOffset (cfg : Config) (radius : ℝ) (rand : ℕ → ℝ)
    (landingZoneIndex : ℤ) (i : ℕ) : ℝ :=
  if landingZoneIndex ≤ (i : ℤ) ∧ (i : ℤ) ≤ landingZoneIndex + 1 then 0
  else (rand i - 0.5) * radius * cfg.moonBumpiness

/-- The point loop of generateMoon: for each index i the angle is
2 pi i / MOON_SEGMENTS and the point sits at distance radius + randomOffset
from the center, with the screen y axis pointing down. -/
def generateMoonPoints (cfg : Config) (radius : ℝ) (center : Vec2) (rand : ℕ → ℝ)
    (landingZoneIndex : ℤ) : List Vec2 :=
  (List.range cfg.moonSegments).map fun (i : ℕ) =>
    let angle := Real.pi * 2 / (cfg.moonSegments : ℝ) * (i : ℝ)
    let offset := randomOffset cfg radius rand landingZoneIndex i
    { x := center.x + Real.cos angle * (radius + offset),
      y := center.y - Real.sin angle * (radius + offset) }

/-- Squared distance of a point from a center, used to state that generated
landing-zone points sit exactly on the circle of the configured radius. -/
def distSqFromCenter (center p : Vec2) : ℝ :=
  (p.x - center.x) * (p.x - center.x) + (p.y - center.y) * (p.y - center.y)

/-- The first failing check in the fixed order of claim C1: missedZone, then
notUpright, then tooFast; none when all three checks pass. -/
def firstFailing (zone upright soft : Prop) : Option CrashReason :=
  if ¬zone then some CrashReason.missedZone
  else if ¬upright then some CrashReason.notUpright
  else if ¬soft then some CrashReason.tooFast
  else none

/-- Modelled from the spec: the epsilon clamp of section 7, which the source
does not contain - clamp the craft-to-center distance to a minimum epsilon
and divide the offset by the clamped distance to normalize the direction. -/
def specClampedGravityDir (epsilon : ℝ) (pos center : Vec2) : Vec2 :=
  let dx := center.x - pos.x
  let dy := center.y - pos.y
  let d := max (Real.sqrt (dx * dx + dy * dy)) epsilon
  { x := dx / d, y := dy / d }

/-- All three input keys released. -/
def keysOff : Keys := { arrowLeft := false, arrowRight := false, arrowUp := false }

/-- A freefall scenario: active game, craft 800 units above a center at the
origin with vertical velocity vy, no stored surface points, no input held. -/
def freefallState (vy : ℝ) : GameState where
  isGameActive := true
  isPaused := false
  moonPoints := []
  landingZoneIndex := 0
  moonRotation := 0
  moonCenter := { x := 0, y := 0 }
  moonRadius := 400
  scale := 1
  spacecraft :=
    { x := 0, y := -800, rotation := 0, velocityX := 0, velocityY := vy, fuel := 100 }
  keys := keysOff
  outcome := none

/-- A state whose craft sits on the negative x axis of the center and is
rotated by -270 degrees, driving the normalized relative rotation to the
boundary value -180. -/
def sidewaysState : GameState :=
  { freefallState 0 with
    spacecraft :=
      { x := -1, y := 0, rotation := -270, velocityX := 0, velocityY := 0, fuel := 100 } }

/-- A state whose craft position coincides with the moon center exactly. -/
def centerState : GameState :=
  { freefallState 0 with
    moonCenter := { x := 3, y := 5 },
    spacecraft := { x := 3, y := 5, rotation := 0, velocityX := 0, velocityY := 0, fuel := 100 } }

/-- A state storing a single surface point, so the segment scan has an empty
index range. -/
def onePointState : GameState :=
  { freefallState 0 with moonPoints := [{ x := 0, y := -400 }] }

/-- An ended session: isGameActive cleared after a classification. -/
def endedState : GameState :=
  { freefallState 0 with isGameActive := false, outcome := some Outcome.landed }

/-- An active freefall state with the thrust key held. -/
def thrustState : GameState :=
  { freefallState 0 with
    keys := { arrowLeft := false, arrowRight := false, arrowUp := true } }

/-! Helper lemmas shared by several claims. -/

lemma checkCollision_spacecraft (cfg : Config) (st : GameState) :
    (checkCollision cfg st).spacecraft = st.spacecraft := by
  unfold checkCollision
  cases detectIdx cfg st with
  | none => rfl
  | some i => rfl

lemma checkCollision_moonPoints (cfg : Config) (st : GameState) :
    (checkCollision cfg st).moonPoints = st.moonPoints := by
  unfold checkCollision
  cases detectIdx cfg st with
  | none => rfl
  | some i => rfl

lemma physicsStep_fuel (cfg : Config) (st : GameState) :
    (physicsStep cfg st).spacecraft.fuel =
      if st.keys.arrowUp = true ∧ 0 < st.spacecraft.fuel then
        max 0 (st.spacecraft.fuel - cfg.fuelConsumption * dt)
      else st.spacecraft.fuel := rfl

lemma physicsStep_moonPoints (cfg : Config) (st : GameState) :
    (physicsStep cfg st).moonPoints = st.moonPoints := rfl

lemma physicsStep_isGameActive (cfg : Config) (st : GameState) :
    (physicsStep cfg st).isGameActive = st.isGameActive := rfl

lemma physicsStep_outcome (cfg : Config) (st : GameState) :
    (physicsStep cfg st).outcome = st.outcome := rfl

lemma update_eq_of_active (cfg : Config) (st : GameState)
    (hact : st.isGameActive = true) (hp : st.isPaused = false) :
    update cfg st = checkCollision cfg (physicsStep cfg st) := by
  unfold update
  rw [if_neg]
  simp [hact, hp]

lemma update_spacecraft_of_active (cfg : Config) (st : GameState)
    (hact : st.isGameActive = true) (hp : st.isPaused = false) :
    (update cfg st).spacecraft = (physicsStep cfg st).spacecraft := by
  rw [update_eq_of_active cfg st hact hp, checkCollision_spacecraft]

/-! Claim theorems. -/

/-- Claim C9: once the session has ended no further tick changes the state;
every iterate of update leaves an inactive state exactly as it is, so the
final telemetry survives all later ticks until an external restart. -/
theorem c9_ended_state_frozen (cfg : Config) (st : GameState)
    (h : st.isGameActive = false) :
    ∀ n : ℕ, (update cfg)^[n] st = st := by
  have h1 : update cfg st = st := by
    unfold update
    rw [if_pos (Or.inl h)]
  intro n
  exact Function.iterate_fixed h1 n

/-- Claim C9 witness: three ticks on a concrete ended state change nothing. -/
theorem c9_witness : (update part001Config)^[3] endedState = endedState :=
  c9_ended_state_frozen part001Config endedState rfl 3

/-- Claim C6: the segment intersection test reports no intersection whenever
the two segments are parallel, that is the 2 by 2 determinant vanishes, and
in particular whenever either segment has zero length. -/
theorem c6_degenerate_segments_never_intersect (x1 y1 x2 y2 x3 y3 x4 y4 : ℝ)
    (h : (x2 - x1) * (y4 - y3) - (y2 - y1) * (x4 - x3) = 0 ∨
         (x2 = x1 ∧ y2 = y1) ∨ (x4 = x3 ∧ y4 = y3)) :
    ¬ lineSegmentsIntersect x1 y1 x2 y2 x3 y3 x4 y4 := by
  intro hint
  have hden : (x2 - x1) * (y4 - y3) - (y2 - y1) * (x4 - x3) ≠ 0 := hint.1
  rcases h with h0 | ⟨hx, hy⟩ | ⟨hx, hy⟩
  · exact hden h0
  · apply hden
    rw [hx, hy]
    ring
  · apply hden
    rw [hx, hy]
    ring

/-- Claim C6 witness: a zero-length first segment is reported as not
intersecting a concrete second segment. -/
theorem c6_witness : ¬ lineSegmentsIntersect 2 2 2 2 0 0 1 1 :=
  c6_degenerate_segments_never_intersect 2 2 2 2 0 0 1 1 (Or.inr (Or.inl ⟨rfl, rfl⟩))

/-- Claim C4: over one tick with any input combination the fuel never
increases, and it stays inside the range from 0 to the capacity 100. -/
theorem c4_fuel_monotone_and_bounded (cfg : Config) (st : GameState)
    (hc : 0 ≤ cfg.fuelConsumption)
    (h0 : 0 ≤ st.spacecraft.fuel) (h100 : st.spacecraft.fuel ≤ 100) :
    (update cfg st).spacecraft.fuel ≤ st.spacecraft.fuel ∧
    0 ≤ (update cfg st).spacecraft.fuel ∧
    (update cfg st).spacecraft.fuel ≤ 100 := by
  by_cases hguard : st.isGameActive = false ∨ st.isPaused = true
  · unfold update
    rw [if_pos hguard]
    exact ⟨le_refl _, h0, h100⟩
  · push_neg at hguard
    have hsp : (update cfg st).spacecraft = (physicsStep cfg st).spacecraft :=
      update_spacecraft_of_active cfg st
        (by revert hguard; cases st.isGameActive <;> simp)
        (by revert hguard; cases st.isPaused <;> simp)
    rw [hsp, physicsStep_fuel]
    have hdt : 0 ≤ cfg.fuelConsumption * dt := by
      apply mul_nonneg hc
      norm_num [dt]
    by_cases ht : st.keys.arrowUp = true ∧ 0 < st.spacecraft.fuel
    · rw [if_pos ht]
      refine ⟨max_le (by linarith [ht.2]) (by linarith), le_max_left _ _,
        max_le (by linarith) (by linarith)⟩
    · rw [if_neg ht]
      exact ⟨le_refl _, h0, h100⟩

/-- Claim C4 witness: one thrusting tick on a concrete full-fuel state keeps
the fuel between 0 and 100 without increasing it. -/
theorem c4_witness :
    (update part001Config thrustState).spacecraft.fuel ≤ thrustState.spacecraft.fuel ∧
    0 ≤ (update part001Config thrustState).spacecraft.fuel ∧
    (update part001Config thrustState).spacecraft.fuel ≤ 100 :=
  c4_fuel_monotone_and_bounded part001Config thrustState
    (by norm_num [part001Config])
    (by norm_num [thrustState, freefallState])
    (by norm_num [thrustState, freefallState])

/-- Claim C1: the classification of a detected collision is Landed exactly
when the in-zone, upright and speed checks all pass, and otherwise it is
Crashed with the single first failing reason in the fixed order missedZone,
notUpright, tooFast. -/
theorem c1_outcome_classification (cfg : Config) (st : GameState) (k : ℤ) :
    classify cfg st k =
      (firstFailing (isInLandingZone st k) (isUprightLanding cfg st)
        (isSoftLanding cfg st)).elim Outcome.landed Outcome.crashed ∧
    (firstFailing (isInLandingZone st k) (isUprightLanding cfg st)
        (isSoftLanding cfg st) = none ↔
      isInLandingZone st k ∧ isUprightLanding cfg st ∧ isSoftLanding cfg st) := by
  unfold classify firstFailing
  by_cases hA : isInLandingZone st k <;>
    by_cases hB : isUprightLanding cfg st <;>
      by_cases hC : isSoftLanding cfg st <;>
        simp [hA, hB, hC]

lemma rotatedPoints_length (st : GameState) :
    (rotatedPoints st).length = st.moonPoints.length :=
  List.length_map _ _

lemma detectIdx_eq_none_of (cfg : Config) (st : GameState)
    (h : ∀ j : ℕ, j + 1 < st.moonPoints.length → ¬ craftHitsSegment cfg st j) :
    detectIdx cfg st = none := by
  unfold detectIdx
  rw [List.find?_eq_none]
  intro i hi
  rw [List.mem_range, rotatedPoints_length] at hi
  simp only [decide_eq_true_eq]
  apply h
  omega

lemma detectIdx_lt (cfg : Config) (st : GameState) (i : ℕ)
    (h : detectIdx cfg st = some i) : i + 1 < st.moonPoints.length := by
  unfold detectIdx at h
  have hmem := List.mem_of_find?_eq_some h
  rw [List.mem_range, rotatedPoints_length] at hmem
  omega

/-- Claim C8: a tick of an active unpaused session in which no stored surface
segment intersects any side of the craft silhouette produces no outcome and
leaves the session active. -/
theorem c8_no_intersection_continues (cfg : Config) (st : GameState)
    (hact : st.isGameActive = true) (hp : st.isPaused = false)
    (hno : ∀ j : ℕ, j + 1 < st.moonPoints.length →
      ¬ craftHitsSegment cfg (physicsStep cfg st) j) :
    (update cfg st).isGameActive = true ∧ (update cfg st).outcome = st.outcome := by
  have hnone : detectIdx cfg (physicsStep cfg st) = none :=
    detectIdx_eq_none_of cfg (physicsStep cfg st) hno
  have h2 : checkCollision cfg (physicsStep cfg st) = physicsStep cfg st := by
    unfold checkCollision
    rw [hnone]
  have h3 : update cfg st = physicsStep cfg st := by
    rw [update_eq_of_active cfg st hact hp, h2]
  rw [h3, physicsStep_isGameActive, physicsStep_outcome]
  exact ⟨hact, rfl⟩

/-- Claim C8 witness: a tick on a concrete active state with no stored
segments detects nothing and stays active with an unchanged outcome. -/
theorem c8_witness :
    (update part001Config (freefallState 0)).isGameActive = true ∧
    (update part001Config (freefallState 0)).outcome = (freefallState 0).outcome :=
  c8_no_intersection_continues part001Config (freefallState 0) rfl rfl
    (by intro j hj; simp [freefallState] at hj)

/-- Claim C10: the collision scan only ever reports a stored segment index i
with i + 1 below the point count, and its result is independent of the
closing segment - whenever no stored segment from a point to its successor is
hit, the scan reports no collision at all. -/
theorem c10_closing_segment_never_reported (cfg : Config) (st : GameState) :
    (∀ i : ℕ, detectIdx cfg st = some i → i + 1 < st.moonPoints.length) ∧
    ((∀ j : ℕ, j + 1 < st.moonPoints.length → ¬ craftHitsSegment cfg st j) →
      detectIdx cfg st = none) :=
  ⟨fun i h => detectIdx_lt cfg st i h, fun h => detectIdx_eq_none_of cfg st h⟩

/-- Claim C10 witness: with a single stored point there is no stored segment
at all, and the scan reports no collision. -/
theorem c10_witness : detectIdx part001Config onePointState = none :=
  (c10_closing_segment_never_reported part001Config onePointState).2
    (by intro j hj; simp [onePointState, freefallState] at hj)

lemma jsMod360_bounds (a : ℝ) : -360 < jsMod a 360 ∧ jsMod a 360 < 360 := by
  unfold jsMod rtrunc
  have e : a / 360 * 360 = a := div_mul_cancel₀ a (by norm_num)
  by_cases h : 0 ≤ a / 360
  · rw [if_pos h]
    have h1 : (⌊a / 360⌋ : ℝ) ≤ a / 360 := Int.floor_le _
    have h2 : a / 360 < ⌊a / 360⌋ + 1 := Int.lt_floor_add_one _
    have h1r : (⌊a / 360⌋ : ℝ) * 360 ≤ a / 360 * 360 :=
      mul_le_mul_of_nonneg_right h1 (by norm_num)
    have h2r : a / 360 * 360 < ((⌊a / 360⌋ : ℝ) + 1) * 360 :=
      mul_lt_mul_of_pos_right h2 (by norm_num)
    rw [e] at h1r h2r
    constructor <;> nlinarith
  · rw [if_neg h]
    have h1 : a / 360 ≤ (⌈a / 360⌉ : ℝ) := Int.le_ceil _
    have h2 : (⌈a / 360⌉ : ℝ) < a / 360 + 1 := Int.ceil_lt_add_one _
    have h1r : a / 360 * 360 ≤ (⌈a / 360⌉ : ℝ) * 360 :=
      mul_le_mul_of_nonneg_right h1 (by norm_num)
    have h2r : (⌈a / 360⌉ : ℝ) * 360 < (a / 360 + 1) * 360 :=
      mul_lt_mul_of_pos_right h2 (by norm_num)
    rw [e] at h1r
    have h2x : (⌈a / 360⌉ : ℝ) * 360 < a + 360 := by
      calc (⌈a / 360⌉ : ℝ) * 360 < (a / 360 + 1) * 360 := h2r
      _ = a / 360 * 360 + 360 := by ring
      _ = a + 360 := by rw [e]
    constructor <;> nlinarith

lemma normalizedRotation_bounds (st : GameState) :
    -180 ≤ normalizedRotation st ∧ normalizedRotation st ≤ 180 := by
  obtain ⟨hlo, hhi⟩ := jsMod360_bounds (st.spacecraft.rotation + 90 - angleToCenter st)
  unfold normalizedRotation relativeRotation at *
  by_cases h1 : jsMod (st.spacecraft.rotation + 90 - angleToCenter st) 360 > 180
  · rw [if_pos h1]
    constructor <;> linarith
  · rw [if_neg h1]
    by_cases h2 : jsMod (st.spacecraft.rotation + 90 - angleToCenter st) 360 < -180
    · rw [if_pos h2]
      constructor <;> linarith
    · rw [if_neg h2]
      constructor <;> linarith

lemma normalizedRotation_congruent (st : GameState) :
    ∃ k : ℤ, normalizedRotation st =
      (st.spacecraft.rotation + 90 - angleToCenter st) - 360 * k := by
  unfold normalizedRotation relativeRotation jsMod
  by_cases h1 : st.spacecraft.rotation + 90 - angleToCenter st -
      360 * rtrunc ((st.spacecraft.rotation + 90 - angleToCenter st) / 360) > 180
  · rw [if_pos h1]
    refine ⟨rtrunc ((st.spacecraft.rotation + 90 - angleToCenter st) / 360) + 1, ?_⟩
    push_cast
    ring
  · rw [if_neg h1]
    by_cases h2 : st.spacecraft.rotation + 90 - angleToCenter st -
        360 * rtrunc ((st.spacecraft.rotation + 90 - angleToCenter st) / 360) < -180
    · rw [if_pos h2]
      refine ⟨rtrunc ((st.spacecraft.rotation + 90 - angleToCenter st) / 360) - 1, ?_⟩
      push_cast
      ring
    · rw [if_neg h2]
      exact ⟨rtrunc ((st.spacecraft.rotation + 90 - angleToCenter st) / 360), by ring⟩

/-- Claim C2 (amended): the upright test compares the craft rotation against
the local radial direction, through the offset angleToCenter computed from
the craft-to-center atan2; the relative angle is reduced by a whole number of
full turns into the closed range from -180 to 180 degrees, both endpoints
attainable, and the test passes exactly when its absolute value is at most
the acceptable landing angle. -/
theorem c2_upright_test_radial (cfg : Config) (st : GameState) :
    (-180 ≤ normalizedRotation st ∧ normalizedRotation st ≤ 180) ∧
    (∃ k : ℤ, normalizedRotation st =
      (st.spacecraft.rotation + 90 - angleToCenter st) - 360 * k) ∧
    (isUprightLanding cfg st ↔ |normalizedRotation st| ≤ cfg.acceptableLandingAngle) :=
  ⟨normalizedRotation_bounds st, normalizedRotation_congruent st, Iff.rfl⟩

/-- Claim C2 counterexample: at a concrete collision state the normalized
relative angle is exactly -180, which lies outside the half-open range
claimed by the spec (greater than -180 and at most 180). -/
theorem c2_counterexample :
    normalizedRotation sidewaysState = -180 ∧
    ¬ (-180 < normalizedRotation sidewaysState) := by
  have h1 : angleToCenter sidewaysState = 0 := by
    unfold angleToCenter atan2
    have harg : (⟨sidewaysState.moonCenter.x - sidewaysState.spacecraft.x,
        sidewaysState.moonCenter.y - sidewaysState.spacecraft.y⟩ : ℂ) = 1 := by
      apply Complex.ext <;> norm_num [sidewaysState, freefallState]
    rw [harg, Complex.arg_one]
    ring
  have h2 : relativeRotation sidewaysState = -180 := by
    unfold relativeRotation
    rw [h1]
    have hrot : sidewaysState.spacecraft.rotation = -270 := rfl
    rw [hrot]
    unfold jsMod rtrunc
    rw [if_neg (by norm_num)]
    have hc : ⌈(-270 + 90 - (0:ℝ)) / 360⌉ = 0 := by
      rw [Int.ceil_eq_iff]
      norm_num
    rw [hc]
    norm_num
  have h3 : normalizedRotation sidewaysState = -180 := by
    unfold normalizedRotation
    rw [h2]
    rw [if_neg (by norm_num), if_neg (by norm_num)]
  exact ⟨h3, by rw [h3]; norm_num⟩

lemma generateMoonPoints_getD (cfg : Config) (radius : ℝ) (center : Vec2)
    (rand : ℕ → ℝ) (zi : ℤ) (i : ℕ) (hi : i < cfg.moonSegments) :
    (generateMoonPoints cfg radius center rand zi).getD i { x := 0, y := 0 } =
      { x := center.x + Real.cos (Real.pi * 2 / (cfg.moonSegments : ℝ) * (i : ℝ)) *
          (radius + randomOffset cfg radius rand zi i),
        y := center.y - Real.sin (Real.pi * 2 / (cfg.moonSegments : ℝ) * (i : ℝ)) *
          (radius + randomOffset cfg radius rand zi i) } := by
  unfold generateMoonPoints
  rw [List.getD_eq_getElem?_getD, List.getElem?_map, List.getElem?_range hi]
  rfl

/-- Claim C5: every generated point whose index is inside the landing-zone
span gets radial offset exactly 0 and sits exactly on the circle of the
given radius around the center; every other index gets an offset inside the
symmetric band of half width radius times bumpiness over two. -/
theorem c5_landing_zone_flat (cfg : Config) (radius : ℝ) (center : Vec2)
    (rand : ℕ → ℝ) (zi : ℤ)
    (hrand : ∀ n : ℕ, 0 ≤ rand n ∧ rand n < 1)
    (hr : 0 ≤ radius) (hb : 0 ≤ cfg.moonBumpiness) :
    ∀ i : ℕ,
      (zi ≤ (i : ℤ) ∧ (i : ℤ) ≤ zi + 1 →
        randomOffset cfg radius rand zi i = 0 ∧
        (i < cfg.moonSegments →
          distSqFromCenter center
            ((generateMoonPoints cfg radius center rand zi).getD i { x := 0, y := 0 }) =
            radius * radius)) ∧
      (¬(zi ≤ (i : ℤ) ∧ (i : ℤ) ≤ zi + 1) →
        -(radius * cfg.moonBumpiness / 2) ≤ randomOffset cfg radius rand zi i ∧
        randomOffset cfg radius rand zi i ≤ radius * cfg.moonBumpiness / 2) := by
  intro i
  constructor
  · intro hz
    have hoff : randomOffset cfg radius rand zi i = 0 := by
      unfold randomOffset
      rw [if_pos hz]
    refine ⟨hoff, ?_⟩
    intro hi
    rw [generateMoonPoints_getD cfg radius center rand zi i hi, hoff]
    unfold distSqFromCenter
    have hsc := Real.sin_sq_add_cos_sq (Real.pi * 2 / (cfg.moonSegments : ℝ) * (i : ℝ))
    simp only []
    linear_combination (radius * radius) * hsc
  · intro hz
    unfold randomOffset
    rw [if_neg hz]
    obtain ⟨h0, h1⟩ := hrand i
    have hrb : 0 ≤ radius * cfg.moonBumpiness := mul_nonneg hr hb
    have l1 : -(1 / 2 : ℝ) ≤ rand i - 0.5 := by linarith
    have l2 : rand i - 0.5 ≤ 1 / 2 := by linarith
    constructor
    · nlinarith [mul_le_mul_of_nonneg_right l1 hrb]
    · nlinarith [mul_le_mul_of_nonneg_right l2 hrb]

/-- Claim C5 witness: with a constant half random stream, a zone index of 70
and radius 400, index 71 is flat and index 0 stays inside the offset band. -/
theorem c5_witness :
    randomOffset part001Config 400 (fun _ => 1 / 2) 70 71 = 0 ∧
    -(400 * part001Config.moonBumpiness / 2) ≤ randomOffset part001Config 400 (fun _ => 1 / 2) 70 0 ∧
    randomOffset part001Config 400 (fun _ => 1 / 2) 70 0 ≤ 400 * part001Config.moonBumpiness / 2 := by
  have h := c5_landing_zone_flat part001Config 400 { x := 0, y := 0 } (fun _ => 1 / 2) 70
    (fun n => by norm_num) (by norm_num) (by norm_num [part001Config])
  refine ⟨((h 71).1 (by norm_num)).1, ?_, ?_⟩
  · exact ((h 0).2 (by norm_num)).1
  · exact ((h 0).2 (by norm_num)).2

lemma complex_mk_ne_zero {x y : ℝ} (h : ¬(x = 0 ∧ y = 0)) : (⟨x, y⟩ : ℂ) ≠ 0 := by
  intro h0
  apply h
  constructor
  · have := congrArg Complex.re h0
    simpa using this
  · have := congrArg Complex.im h0
    simpa using this

lemma atan2_cos (y x : ℝ) (h : ¬(x = 0 ∧ y = 0)) :
    Real.cos (atan2 y x) = x / Real.sqrt (x * x + y * y) := by
  unfold atan2
  rw [Complex.cos_arg (complex_mk_ne_zero h), Complex.abs_apply, Complex.normSq_mk]

lemma atan2_sin (y x : ℝ) :
    Real.sin (atan2 y x) = y / Real.sqrt (x * x + y * y) := by
  unfold atan2
  rw [Complex.sin_arg, Complex.abs_apply, Complex.normSq_mk]

lemma physicsStep_velocity_nothrust (cfg : Config) (st : GameState)
    (hu : st.keys.arrowUp = false) :
    (physicsStep cfg st).spacecraft.velocityX =
      st.spacecraft.velocityX + Real.cos (gravityAngle st) * cfg.moonGravity * dt ∧
    (physicsStep cfg st).spacecraft.velocityY =
      st.spacecraft.velocityY + Real.sin (gravityAngle st) * cfg.moonGravity * dt := by
  unfold physicsStep
  simp [hu]

/-- Claim C3 (amended): over a tick of an active unpaused session with no
input held, while the craft is farther from the body center than the body
radius and its velocity does not point away from the center, that is the
component of velocity towards the center is nonnegative, the speed strictly
increases. -/
theorem c3_descending_freefall_speed_increases (cfg : Config) (st : GameState)
    (hact : st.isGameActive = true) (hp : st.isPaused = false)
    ( _hl : st.keys.arrowLeft = false) ( _hr : st.keys.arrowRight = false)
    (hu : st.keys.arrowUp = false)
    (hg : 0 < cfg.moonGravity)
    (hrad : 0 < st.moonRadius)
    (hdist : st.moonRadius < distanceToCenter st)
    (hin : 0 ≤ st.spacecraft.velocityX * (st.moonCenter.x - st.spacecraft.x) +
      st.spacecraft.velocityY * (st.moonCenter.y - st.spacecraft.y)) :
    speed st < speed (update cfg st) := by
  have hpos : 0 < distanceToCenter st := lt_trans hrad hdist
  have hsq : 0 < (st.moonCenter.x - st.spacecraft.x) * (st.moonCenter.x - st.spacecraft.x) +
      (st.moonCenter.y - st.spacecraft.y) * (st.moonCenter.y - st.spacecraft.y) := by
    unfold distanceToCenter at hpos
    exact Real.sqrt_pos.mp hpos
  have hne : ¬(st.moonCenter.x - st.spacecraft.x = 0 ∧ st.moonCenter.y - st.spacecraft.y = 0) := by
    rintro ⟨h1, h2⟩
    rw [h1, h2] at hsq
    norm_num at hsq
  have hc : Real.cos (gravityAngle st) =
      (st.moonCenter.x - st.spacecraft.x) /
        Real.sqrt ((st.moonCenter.x - st.spacecraft.x) * (st.moonCenter.x - st.spacecraft.x) +
          (st.moonCenter.y - st.spacecraft.y) * (st.moonCenter.y - st.spacecraft.y)) :=
    atan2_cos (st.moonCenter.y - st.spacecraft.y) (st.moonCenter.x - st.spacecraft.x) hne
  have hs : Real.sin (gravityAngle st) =
      (st.moonCenter.y - st.spacecraft.y) /
        Real.sqrt ((st.moonCenter.x - st.spacecraft.x) * (st.moonCenter.x - st.spacecraft.x) +
          (st.moonCenter.y - st.spacecraft.y) * (st.moonCenter.y - st.spacecraft.y)) :=
    atan2_sin (st.moonCenter.y - st.spacecraft.y) (st.moonCenter.x - st.spacecraft.x)
  have hmid : 0 ≤ st.spacecraft.velocityX * Real.cos (gravityAngle st) +
      st.spacecraft.velocityY * Real.sin (gravityAngle st) := by
    rw [hc, hs]
    have he : st.spacecraft.velocityX *
        ((st.moonCenter.x - st.spacecraft.x) /
          Real.sqrt ((st.moonCenter.x - st.spacecraft.x) * (st.moonCenter.x - st.spacecraft.x) +
            (st.moonCenter.y - st.spacecraft.y) * (st.moonCenter.y - st.spacecraft.y))) +
        st.spacecraft.velocityY *
        ((st.moonCenter.y - st.spacecraft.y) /
          Real.sqrt ((st.moonCenter.x - st.spacecraft.x) * (st.moonCenter.x - st.spacecraft.x) +
            (st.moonCenter.y - st.spacecraft.y) * (st.moonCenter.y - st.spacecraft.y))) =
        (st.spacecraft.velocityX * (st.moonCenter.x - st.spacecraft.x) +
          st.spacecraft.velocityY * (st.moonCenter.y - st.spacecraft.y)) /
        Real.sqrt ((st.moonCenter.x - st.spacecraft.x) * (st.moonCenter.x - st.spacecraft.x) +
          (st.moonCenter.y - st.spacecraft.y) * (st.moonCenter.y - st.spacecraft.y)) := by
      ring
    rw [he]
    exact div_nonneg hin (Real.sqrt_nonneg _)
  obtain ⟨hvx, hvy⟩ := physicsStep_velocity_nothrust cfg st hu
  have hupd : (update cfg st).spacecraft = (physicsStep cfg st).spacecraft :=
    update_spacecraft_of_active cfg st hact hp
  unfold speed
  rw [hupd, hvx, hvy]
  apply Real.sqrt_lt_sqrt
  · nlinarith [sq_nonneg st.spacecraft.velocityX, sq_nonneg st.spacecraft.velocityY]
  · have hone := Real.sin_sq_add_cos_sq (gravityAngle st)
    have hgdt : 0 < cfg.moonGravity * dt := mul_pos hg (by norm_num [dt])
    nlinarith [mul_nonneg hgdt.le hmid, mul_pos hgdt hgdt, hone]

lemma gravityAngle_freefall (vy : ℝ) :
    gravityAngle (freefallState vy) = Real.pi / 2 := by
  unfold gravityAngle atan2
  have harg : (⟨(freefallState vy).moonCenter.x - (freefallState vy).spacecraft.x,
      (freefallState vy).moonCenter.y - (freefallState vy).spacecraft.y⟩ : ℂ) =
      (800 : ℝ) * Complex.I := by
    apply Complex.ext <;> norm_num [freefallState]
  rw [harg, Complex.arg_real_mul _ (by norm_num : (0:ℝ) < 800), Complex.arg_I]

/-- Claim C3 counterexample: a concrete active freefall state with no input,
craft distance 800 above radius 400, whose velocity points away from the
center; over the next tick its speed strictly decreases, refuting the claim
that speed strictly increases on every freefall tick outside the body. -/
theorem c3_counterexample :
    (freefallState (-10)).isGameActive = true ∧
    (freefallState (-10)).isPaused = false ∧
    (freefallState (-10)).keys = keysOff ∧
    (freefallState (-10)).moonRadius < distanceToCenter (freefallState (-10)) ∧
    speed (update part001Config (freefallState (-10))) < speed (freefallState (-10)) := by
  have hdist : distanceToCenter (freefallState (-10)) = 800 := by
    unfold distanceToCenter
    have he : ((freefallState (-10)).moonCenter.x - (freefallState (-10)).spacecraft.x) *
        ((freefallState (-10)).moonCenter.x - (freefallState (-10)).spacecraft.x) +
        ((freefallState (-10)).moonCenter.y - (freefallState (-10)).spacecraft.y) *
        ((freefallState (-10)).moonCenter.y - (freefallState (-10)).spacecraft.y) =
        800 ^ 2 := by
      norm_num [freefallState]
    rw [he]
    exact Real.sqrt_sq (by norm_num)
  refine ⟨rfl, rfl, rfl, ?_, ?_⟩
  · rw [hdist]
    norm_num [freefallState]
  · obtain ⟨hvx, hvy⟩ := physicsStep_velocity_nothrust part001Config (freefallState (-10)) rfl
    have hupd : (update part001Config (freefallState (-10))).spacecraft =
        (physicsStep part001Config (freefallState (-10))).spacecraft :=
      update_spacecraft_of_active part001Config (freefallState (-10)) rfl rfl
    unfold speed
    rw [hupd, hvx, hvy, gravityAngle_freefall, Real.cos_pi_div_two, Real.sin_pi_div_two]
    apply Real.sqrt_lt_sqrt
    · norm_num [freefallState, part001Config, dt]
    · norm_num [freefallState, part001Config, dt]

/-- Claim C3 witness for the amended statement: the same freefall state with
the velocity pointing towards the center gains speed over the tick. -/
theorem c3_witness :
    speed (freefallState 10) < speed (update part001Config (freefallState 10)) := by
  apply c3_descending_freefall_speed_increases part001Config (freefallState 10)
    rfl rfl rfl rfl rfl (by norm_num [part001Config]) (by norm_num [freefallState])
  · have hdist : distanceToCenter (freefallState 10) = 800 := by
      unfold distanceToCenter
      have he : ((freefallState 10).moonCenter.x - (freefallState 10).spacecraft.x) *
          ((freefallState 10).moonCenter.x - (freefallState 10).spacecraft.x) +
          ((freefallState 10).moonCenter.y - (freefallState 10).spacecraft.y) *
          ((freefallState 10).moonCenter.y - (freefallState 10).spacecraft.y) =
          800 ^ 2 := by
        norm_num [freefallState]
      rw [he]
      exact Real.sqrt_sq (by norm_num)
    rw [hdist]
    norm_num [freefallState]
  · norm_num [freefallState]

/-- Claim C7 (amended): the gravity direction of the tick is computed with
atan2 and is total, with no epsilon clamp in the source: it is a unit vector
for every craft position, the gravity velocity increment always has squared
magnitude exactly the square of gravity times dt, and at a craft position
exactly equal to the body center the direction is the definite finite pair
of cosine 1 and sine 0. -/
theorem c7_gravity_total_no_clamp (cfg : Config) (st : GameState) :
    Real.cos (gravityAngle st) ^ 2 + Real.sin (gravityAngle st) ^ 2 = 1 ∧
    (Real.cos (gravityAngle st) * cfg.moonGravity * dt) ^ 2 +
      (Real.sin (gravityAngle st) * cfg.moonGravity * dt) ^ 2 =
      (cfg.moonGravity * dt) ^ 2 ∧
    (st.spacecraft.x = st.moonCenter.x → st.spacecraft.y = st.moonCenter.y →
      Real.cos (gravityAngle st) = 1 ∧ Real.sin (gravityAngle st) = 0) := by
  have h1 := Real.cos_sq_add_sin_sq (gravityAngle st)
  refine ⟨h1, by linear_combination (cfg.moonGravity * dt) ^ 2 * h1, ?_⟩
  intro hx hy
  have hzero : gravityAngle st = 0 := by
    unfold gravityAngle atan2
    rw [hx, hy]
    have h0 : (⟨st.moonCenter.x - st.moonCenter.x, st.moonCenter.y - st.moonCenter.y⟩ : ℂ) = 0 := by
      apply Complex.ext <;> simp
    rw [h0, Complex.arg_zero]
  rw [hzero]
  exact ⟨Real.cos_zero, Real.sin_zero⟩

/-- Claim C7 witness: at a concrete state whose craft sits exactly at the
body center, the gravity direction evaluates to the finite pair (1, 0). -/
theorem c7_witness :
    Real.cos (gravityAngle centerState) = 1 ∧ Real.sin (gravityAngle centerState) = 0 :=
  (c7_gravity_total_no_clamp part001Config centerState).2.2 rfl rfl

/-- Claim C7 counterexample: at the body center the code produces the unit
direction (1, 0), while the clamp-then-normalize rule described by the spec
would produce the zero vector: the source contains no such clamp. -/
theorem c7_counterexample :
    centerState.spacecraft.x = centerState.moonCenter.x ∧
    centerState.spacecraft.y = centerState.moonCenter.y ∧
    ({ x := Real.cos (gravityAngle centerState),
       y := Real.sin (gravityAngle centerState) } : Vec2) = { x := 1, y := 0 } ∧
    specClampedGravityDir (1 / 1000)
      { x := centerState.spacecraft.x, y := centerState.spacecraft.y }
      centerState.moonCenter = { x := 0, y := 0 } ∧
    ({ x := 1, y := 0 } : Vec2) ≠ { x := 0, y := 0 } := by
  have hzero : gravityAngle centerState = 0 := by
    unfold gravityAngle atan2
    have h0 : (⟨centerState.moonCenter.x - centerState.spacecraft.x,
        centerState.moonCenter.y - centerState.spacecraft.y⟩ : ℂ) = 0 := by
      apply Complex.ext <;> norm_num [centerState, freefallState]
    rw [h0, Complex.arg_zero]
  refine ⟨rfl, rfl, ?_, ?_, ?_⟩
  · rw [hzero, Real.cos_zero, Real.sin_zero]
  · unfold specClampedGravityDir
    have hx : centerState.moonCenter.x - centerState.spacecraft.x = 0 := by
      norm_num [centerState, freefallState]
    have hy : centerState.moonCenter.y - centerState.spacecraft.y = 0 := by
      norm_num [centerState, freefallState]
    rw [hx, hy]
    norm_num
  · intro h
    have hx := congrArg Vec2.x h
    norm_num at hx

end MoonLanding
